import Mathlib

/-!
Shallow embedding of the larcorealg geometry sorting and spatial-query code.

The embedding covers, faithfully to the C++ source:
* `GeoObjectSorterStandard.cxx`: the per-kind comparison functions
  (`sortAuxDetStandard`, `sortAuxDetSensitiveStandard`, `sortCryoStandard`,
  `sortTPCStandard`, `sortPlaneStandard`, `sortWireStandard`) and the sorting
  entry points (`SortAuxDets` .. `SortWires`, `SortPlanesRun`).
* `AuxDetChannelMapAlg.cxx`: `NearestAuxDet`, the trapezoidal containment
  bands of `NearestAuxDet`/`NearestSensitiveAuxDet`, `ChannelToAuxDet` and
  `ChannelToSensitiveAuxDet`.
* `CryostatGeo.cxx`: `PositionToTPCptr`/`PositionToTPC`, `OpDet`,
  `GetClosestOpDet`/`GetClosestOpDetPtr`.

Modelling conventions:
* `double` is modelled as `ℚ`; the geometric comparisons in the source are
  pure arithmetic on transformed coordinates.
* Each geometry element carries the world coordinates that the source obtains
  through its external transform (`LocalToWorld` of the local origin for
  cryostats, TPCs and planes; `GetCenter` for wires); the transforms
  themselves are external collaborators (ROOT), so elements that need a
  world-to-local mapping carry it as an opaque function field.
* `std::sort(first, last, comp)` is modelled as a deterministic
  comparison sort using `comp`: `List.insertionSort` with the non-strict
  relation `fun a b => comp b a = false`. `std::sort` only promises some
  `comp`-sorted permutation — the relative order of `comp`-equivalent
  elements is implementation-dependent — so concrete conclusions are drawn
  only where they are independent of that choice.
* `throw` of an exception (`cet::exception(cat) << msg`, or the
  `std::out_of_range` raised by `std::string::substr`) is modelled as
  `Except.error` carrying the exception's category/type and message
  (`CetException`); `stdSortE` threads a throwing comparison through the
  sort.
-/

namespace Geo

/-- Tolerance when comparing distances in geometry (cm), from
`GeoObjectSorterStandard.cxx`. -/
def DistanceTol : ℚ := 1 / 1000

/-- A world (or local) point; `geo::Point_t` / `double[3]`. -/
structure Point where
  x : ℚ
  y : ℚ
  z : ℚ
deriving DecidableEq

/-- A thrown C++ exception: its category (for `cet::exception`) or type
(for standard-library exceptions) and its message. -/
structure CetException where
  category : String
  message : String
deriving DecidableEq

/-- A wire, reduced to the world coordinates of its center (`GetCenter`). -/
structure WireGeo where
  x : ℚ
  y : ℚ
  z : ℚ
deriving DecidableEq

/-- A plane, reduced to the world coordinates of its local origin
(`LocalToWorld` applied to the local origin). -/
structure PlaneGeo where
  x : ℚ
  y : ℚ
  z : ℚ
deriving DecidableEq

/-- A TPC, reduced to the world coordinates of its local origin. -/
structure TPCGeo where
  x : ℚ
  y : ℚ
  z : ℚ
deriving DecidableEq

/-- An optical detector; `DistanceToPoint` is an external collaborator
primitive, carried as a function field. -/
structure OpDetGeo where
  distanceToPoint : Point → ℚ

/-- A cryostat: world coordinates of its local origin plus its owned
collections (`fTPCs`, `fOpDets`) and identifier (`fID`). -/
structure CryostatGeo where
  x : ℚ
  y : ℚ
  z : ℚ
  fTPCs : List TPCGeo
  fOpDets : List OpDetGeo
  fID : Nat

/-- The shape parameters of an auxiliary-detector (trapezoidal box) volume. -/
structure AuxDetDims where
  halfWidth1 : ℚ
  halfWidth2 : ℚ
  halfHeight : ℚ
  length : ℚ
deriving DecidableEq

/-- An auxiliary detector: GDML volume name, external world-to-local
transform, and shape parameters. -/
structure AuxDetGeo where
  name : String
  worldToLocal : Point → Point
  dims : AuxDetDims

/-- A sensitive sub-volume of an auxiliary detector. -/
structure AuxDetSensitiveGeo where
  name : String
  worldToLocal : Point → Point
  dims : AuxDetDims

/-- The enumeration `geo::DriftDirection_t` as used by `SortPlanes`. -/
inductive DriftDirection where
  | kPosX
  | kNegX
  | kUnknownDrift
deriving DecidableEq

/-! ### C `atoi` and `std::string::substr`, as used by the AuxDet comparators -/

/-- The whitespace characters skipped by C `atoi`. -/
def isCWhitespace (c : Char) : Bool :=
  c = ' ' || c = '\t' || c = '\n' || c = '\x0b' || c = '\x0c' || c = '\r'

/-- Drop the leading C whitespace of a character list. -/
def dropCWhitespace : List Char → List Char
  | [] => []
  | c :: cs => if isCWhitespace c then dropCWhitespace cs else c :: cs

/-- Accumulate the value of a leading run of decimal digits; stops at the
first non-digit. -/
def digitsValue : List Char → Nat → Nat
  | [], acc => acc
  | c :: cs, acc => if c.isDigit then digitsValue cs (10 * acc + (c.toNat - 48)) else acc

/-- C `atoi` after whitespace has been skipped: optional sign, then digits;
yields 0 when no digits follow. -/
def atoiSigned : List Char → Int
  | [] => 0
  | c :: cs =>
    if c = '-' then -(digitsValue cs 0 : Int)
    else if c = '+' then (digitsValue cs 0 : Int)
    else (digitsValue (c :: cs) 0 : Int)

/-- C `atoi`. -/
def atoi (s : String) : Int := atoiSigned (dropCWhitespace s.data)

/-- Model of `s.substr(pos, count)` with `count` at least the remaining
length, valid only for `pos ≤ s.size()`: everything from position `pos` on.
For `pos > s.size()` the real `substr` throws `std::out_of_range`; that
fallible behavior is modelled by `cppSubstrChecked`, which agrees with this
total version exactly when `pos ≤ s.size()`. -/
def cppSubstr (s : String) (pos : Nat) : String := ⟨s.data.drop pos⟩

/-- The `std::out_of_range` exception thrown by `std::string::substr` when
the requested position exceeds the string size. -/
def substrOutOfRangeError (pos size : Nat) : CetException :=
  ⟨"std::out_of_range",
    "basic_string::substr: __pos (which is " ++ toString pos ++
      ") > this->size() (which is " ++ toString size ++ ")"⟩

/-- Model of `s.substr(pos, count)` with the source's error behavior:
throws `std::out_of_range` when `pos > s.size()`. -/
def cppSubstrChecked (s : String) (pos : Nat) : Except CetException String :=
  if pos > s.data.length then .error (substrOutOfRangeError pos s.data.length)
  else .ok ⟨s.data.drop pos⟩

/-! ### The standard comparison functions of `GeoObjectSorterStandard.cxx` -/

/-- The comparison `sortAuxDetStandard`: compare the integers `atoi` extracts from the
volume names after position 9 (the length of `"volAuxDet"`). -/
def sortAuxDetStandard (ad1 ad2 : AuxDetGeo) : Bool :=
  decide (atoi (cppSubstr ad1.name 9) < atoi (cppSubstr ad2.name 9))

/-- The comparison `sortAuxDetSensitiveStandard`: same extraction, also from position 9,
although the comment in the source assumes names `volAuxDetSensitive##`. -/
def sortAuxDetSensitiveStandard (ad1 ad2 : AuxDetSensitiveGeo) : Bool :=
  decide (atoi (cppSubstr ad1.name 9) < atoi (cppSubstr ad2.name 9))

/-- The comparison `sortCryoStandard`: world X of the local origin, ascending. -/
def sortCryoStandard (c1 c2 : CryostatGeo) : Bool :=
  decide (c1.x < c2.x)

/-- The comparison `sortTPCStandard`: world X of the local origin, ascending. -/
def sortTPCStandard (t1 t2 : TPCGeo) : Bool :=
  decide (t1.x < t2.x)

/-- The comparison `sortPlaneStandard`: X descending outside the tolerance, then Z
ascending outside the tolerance, then Y ascending. -/
def sortPlaneStandard (p1 p2 : PlaneGeo) : Bool :=
  if |p1.x - p2.x| > DistanceTol then decide (p1.x > p2.x)
  else if |p1.z - p2.z| > DistanceTol then decide (p1.z < p2.z)
  else decide (p1.y < p2.y)

/-- The comparison `sortWireStandard`: Z ascending outside the tolerance, then Y ascending
outside the tolerance, then X ascending. -/
def sortWireStandard (w1 w2 : WireGeo) : Bool :=
  if |w1.z - w2.z| > DistanceTol then decide (w1.z < w2.z)
  else if |w1.y - w2.y| > DistanceTol then decide (w1.y < w2.y)
  else decide (w1.x < w2.x)

/-- The comparison `sortAuxDetStandard` with the `substr` error path kept:
it throws `std::out_of_range` when either volume name is shorter than 9
characters, and otherwise returns what `sortAuxDetStandard` returns. -/
def sortAuxDetStandardChecked (ad1 ad2 : AuxDetGeo) : Except CetException Bool :=
  match cppSubstrChecked ad1.name 9 with
  | .error e => .error e
  | .ok s1 =>
    match cppSubstrChecked ad2.name 9 with
    | .error e => .error e
    | .ok s2 => .ok (decide (atoi s1 < atoi s2))

/-- The comparison `sortAuxDetSensitiveStandard` with the `substr` error
path kept. -/
def sortAuxDetSensitiveStandardChecked (ad1 ad2 : AuxDetSensitiveGeo) :
    Except CetException Bool :=
  match cppSubstrChecked ad1.name 9 with
  | .error e => .error e
  | .ok s1 =>
    match cppSubstrChecked ad2.name 9 with
    | .error e => .error e
    | .ok s2 => .ok (decide (atoi s1 < atoi s2))

/-! ### Model of `std::sort` -/

/-- The non-strict order induced by a strict comparison function: `a` may
come before `b` exactly when `b` is not strictly before `a`. An output of
`std::sort` with comparison `lt` is ordered by this relation. -/
def stdSortRel (lt : α → α → Bool) (a b : α) : Prop := lt b a = false

instance (lt : α → α → Bool) : DecidableRel (stdSortRel lt) :=
  fun a b => instDecidableEqBool (lt b a) false

/-- Model of `std::sort(v.begin(), v.end(), lt)`: a deterministic
comparison sort of the sequence. `std::sort` guarantees only some
`lt`-sorted permutation; where comparator-equivalent elements occur, their
relative order is implementation-dependent, and this model fixes one valid
choice (a stable insertion sort). Conclusions drawn from concrete
evaluations are confined to inputs whose keys are strictly ordered, where
every valid `std::sort` implementation produces the same output. -/
def stdSort (lt : α → α → Bool) (l : List α) : List α :=
  List.insertionSort (stdSortRel lt) l

/-- The non-strict step of `stdSort`, for a comparison that may throw. -/
def stdSortRelE (lt : α → α → Except CetException Bool) (a b : α) :
    Except CetException Bool :=
  match lt b a with
  | .error e => .error e
  | .ok v => .ok !v

/-- Ordered insertion for a comparison that may throw; the first thrown
exception propagates out, as it does out of `std::sort`. -/
def orderedInsertE (r : α → α → Except CetException Bool) (a : α) :
    List α → Except CetException (List α)
  | [] => .ok [a]
  | b :: l =>
    match r a b with
    | .error e => .error e
    | .ok true => .ok (a :: b :: l)
    | .ok false =>
      match orderedInsertE r a l with
      | .error e => .error e
      | .ok l2 => .ok (b :: l2)

/-- Insertion sort for a comparison that may throw. -/
def insertionSortE (r : α → α → Except CetException Bool) :
    List α → Except CetException (List α)
  | [] => .ok []
  | b :: l =>
    match insertionSortE r l with
    | .error e => .error e
    | .ok l2 => orderedInsertE r b l2

/-- Model of `std::sort(v.begin(), v.end(), lt)` for a comparison that may
throw: the sorted sequence when every performed comparison returns, the
first thrown exception otherwise. -/
def stdSortE (lt : α → α → Except CetException Bool) (l : List α) :
    Except CetException (List α) :=
  insertionSortE (stdSortRelE lt) l

/-- Model of `GeoObjectSorterStandard::SortAuxDets`. -/
def SortAuxDets (adgeo : List AuxDetGeo) : List AuxDetGeo :=
  stdSort sortAuxDetStandard adgeo

/-- Model of `GeoObjectSorterStandard::SortAuxDets` with the comparison's
`substr` error path kept. -/
def SortAuxDetsRun (adgeo : List AuxDetGeo) : Except CetException (List AuxDetGeo) :=
  stdSortE sortAuxDetStandardChecked adgeo

/-- Model of `GeoObjectSorterStandard::SortAuxDetSensitive`. -/
def SortAuxDetSensitive (adsgeo : List AuxDetSensitiveGeo) : List AuxDetSensitiveGeo :=
  stdSort sortAuxDetSensitiveStandard adsgeo

/-- Model of `GeoObjectSorterStandard::SortAuxDetSensitive` with the
comparison's `substr` error path kept. -/
def SortAuxDetSensitiveRun (adsgeo : List AuxDetSensitiveGeo) :
    Except CetException (List AuxDetSensitiveGeo) :=
  stdSortE sortAuxDetSensitiveStandardChecked adsgeo

/-- Model of `GeoObjectSorterStandard::SortCryostats`. -/
def SortCryostats (cgeo : List CryostatGeo) : List CryostatGeo :=
  stdSort sortCryoStandard cgeo

/-- Model of `GeoObjectSorterStandard::SortTPCs`. -/
def SortTPCs (tgeo : List TPCGeo) : List TPCGeo :=
  stdSort sortTPCStandard tgeo

/-- Model of `GeoObjectSorterStandard::SortWires`. -/
def SortWires (wgeo : List WireGeo) : List WireGeo :=
  stdSort sortWireStandard wgeo

/-- The `cet::exception` thrown by `SortPlanes` for an unknown drift
direction. -/
def planesUnknownDriftError : CetException :=
  ⟨"TPCGeo", "Drift direction is unknown, can not sort the planes"⟩

/-- Model of `GeoObjectSorterStandard::SortPlanes`: for `kPosX` the source sorts the
reversed sequence (`rbegin`/`rend`), for `kNegX` the sequence itself, and
for `kUnknownDrift` it throws before touching the collection. The result is
the final state of the plane collection, paired with the thrown exception
when one is raised. -/
def SortPlanesRun (pgeo : List PlaneGeo) (driftDir : DriftDirection) :
    List PlaneGeo × Option CetException :=
  match driftDir with
  | .kPosX => ((stdSort sortPlaneStandard pgeo.reverse).reverse, none)
  | .kNegX => (stdSort sortPlaneStandard pgeo, none)
  | .kUnknownDrift => (pgeo, some planesUnknownDriftError)

/-! ### `AuxDetChannelMapAlg.cxx`: containment bands and channel mapping -/

/-- Render a point the way `NearestAuxDet` streams it into its exception
message: `(x,y,z)`. -/
def pointStr (p : Point) : String :=
  "(" ++ toString p.x ++ "," ++ toString p.y ++ "," ++ toString p.z ++ ")"

/-- The containment test of `AuxDetChannelMapAlg::NearestAuxDet`, on the
point already transformed into the detector's local frame. -/
def nearestAuxDetAccepts (d : AuxDetDims) (localPoint : Point) (tolerance : ℚ) : Bool :=
  let HalfCenterWidth := (1 / 2) * (d.halfWidth1 + d.halfWidth2)
  decide (localPoint.z ≥ -d.length / 2 - tolerance) &&
  decide (localPoint.z ≤ d.length / 2 + tolerance) &&
  decide (localPoint.y ≥ -d.halfHeight - tolerance) &&
  decide (localPoint.y ≤ d.halfHeight + tolerance) &&
  decide (localPoint.x ≥
    -HalfCenterWidth +
      localPoint.z * (HalfCenterWidth - d.halfWidth2) / ((1 / 2) * d.length) - tolerance) &&
  decide (localPoint.x ≤
    HalfCenterWidth -
      localPoint.z * (HalfCenterWidth - d.halfWidth2) / ((1 / 2) * d.length) + tolerance)

/-- The containment test of `AuxDetChannelMapAlg::NearestSensitiveAuxDet`
(same band, with the bounds parenthesised as in the source). -/
def nearestSensitiveAccepts (d : AuxDetDims) (localPoint : Point) (tolerance : ℚ) : Bool :=
  let HalfCenterWidth := (1 / 2) * (d.halfWidth1 + d.halfWidth2)
  decide (localPoint.z ≥ -(d.length / 2 + tolerance)) &&
  decide (localPoint.z ≤ d.length / 2 + tolerance) &&
  decide (localPoint.y ≥ -(d.halfHeight + tolerance)) &&
  decide (localPoint.y ≤ d.halfHeight + tolerance) &&
  decide (localPoint.x ≥
    -HalfCenterWidth +
      localPoint.z * (HalfCenterWidth - d.halfWidth2) / ((1 / 2) * d.length) - tolerance) &&
  decide (localPoint.x ≤
    HalfCenterWidth -
      localPoint.z * (HalfCenterWidth - d.halfWidth2) / ((1 / 2) * d.length) + tolerance)

/-- The exception `NearestAuxDet` throws when no detector contains the
point; it names the query point. -/
def auxDetNotFoundError (p : Point) : CetException :=
  ⟨"AuxDetChannelMapAlg", "Can not find AuxDet for position " ++ pointStr p⟩

/-- The scan loop of `NearestAuxDet`: first detector whose band accepts the
point, by increasing index `a`. -/
def nearestAuxDetLoop (p : Point) (tolerance : ℚ) :
    List AuxDetGeo → Nat → Except CetException Nat
  | [], _ => .error (auxDetNotFoundError p)
  | ad :: rest, a =>
    if nearestAuxDetAccepts ad.dims (ad.worldToLocal p) tolerance then .ok a
    else nearestAuxDetLoop p tolerance rest (a + 1)

/-- Model of `AuxDetChannelMapAlg::NearestAuxDet`. -/
def NearestAuxDet (p : Point) (auxDets : List AuxDetGeo) (tolerance : ℚ) :
    Except CetException Nat :=
  nearestAuxDetLoop p tolerance auxDets 0

/-- The exception `ChannelToAuxDet` throws when no table entry matches the
requested name. -/
def noAuxDetError (detName : String) : CetException :=
  ⟨"Geometry", "No AuxDetGeo matching name: " ++ detName⟩

/-- The scan of `fADGeoToName` inside `ChannelToAuxDet`: first entry whose
stored name equals `detName`. -/
def channelToAuxDetLoop (detName : String) :
    List (Nat × String) → Except CetException Nat
  | [] => .error (noAuxDetError detName)
  | entry :: rest =>
    if entry.2 = detName then .ok entry.1 else channelToAuxDetLoop detName rest

/-- Model of `AuxDetChannelMapAlg::ChannelToAuxDet`: the `auxDets` argument and the
`channel` argument are ignored by the source (commented-out parameters). -/
def ChannelToAuxDet (fADGeoToName : List (Nat × String)) (auxDets : List AuxDetGeo)
    (detName : String) (channel : Nat) : Except CetException Nat :=
  channelToAuxDetLoop detName fADGeoToName

/-- Lookup in the `fADGeoToChannelAndSV` map (`count` then `find` in the
source). -/
def lookupChannelAndSV : List (Nat × List (Nat × Nat)) → Nat → Option (List (Nat × Nat))
  | [], _ => none
  | e :: rest, k => if e.1 = k then some e.2 else lookupChannelAndSV rest k

/-- The exception thrown when an element has no sensitive-channel vector. -/
def noSensitiveTableError (adGeoIdx : Nat) : CetException :=
  ⟨"Geometry",
    "Given AuxDetGeo with index " ++ toString adGeoIdx ++
      " does not correspond to any vector of sensitive volumes"⟩

/-- The exception thrown when the channel is outside the element's
sensitive-channel vector. -/
def channelOutOfRangeError (channel adGeoIdx size : Nat) : CetException :=
  ⟨"Geometry",
    "Given AuxDetSensitive channel, " ++ toString channel ++
      ", cannot be found in vector associated to AuxDetGeo index: " ++ toString adGeoIdx ++
      ". Vector has size " ++ toString size⟩

/-- Model of `AuxDetChannelMapAlg::ChannelToSensitiveAuxDet`. -/
def ChannelToSensitiveAuxDet (fADGeoToName : List (Nat × String))
    (fADGeoToChannelAndSV : List (Nat × List (Nat × Nat))) (auxDets : List AuxDetGeo)
    (detName : String) (channel : Nat) : Except CetException (Nat × Nat) :=
  match ChannelToAuxDet fADGeoToName auxDets detName channel with
  | .error e => .error e
  | .ok adGeoIdx =>
    match lookupChannelAndSV fADGeoToChannelAndSV adGeoIdx with
    | some vec =>
      if h : channel < vec.length then .ok (adGeoIdx, (vec.get ⟨channel, h⟩).2)
      else .error (channelOutOfRangeError channel adGeoIdx vec.length)
    | none => .error (noSensitiveTableError adGeoIdx)

/-! ### `CryostatGeo.cxx`: containment query and closest optical detector -/

/-- The loop of `CryostatGeo::PositionToTPCptr`: first TPC, in sibling
order, whose `ContainsPosition` (an external `TPCGeo` primitive, passed in
as `contains`) accepts the point. -/
def firstContainingTPC (contains : TPCGeo → Point → ℚ → Bool) (point : Point) (wiggle : ℚ) :
    List TPCGeo → Option TPCGeo
  | [] => none
  | t :: rest =>
    if contains t point wiggle then some t else firstContainingTPC contains point wiggle rest

/-- Model of `CryostatGeo::PositionToTPCptr`. -/
def PositionToTPCptr (contains : TPCGeo → Point → ℚ → Bool) (cstat : CryostatGeo)
    (point : Point) (wiggle : ℚ) : Option TPCGeo :=
  firstContainingTPC contains point wiggle cstat.fTPCs

/-- Render of `geo::CryostatID` as streamed into the exception message. -/
def cryostatIDStr (cstat : CryostatGeo) : String := "C:" ++ toString cstat.fID

/-- The exception `PositionToTPC` throws when no TPC contains the point; it
names the query point. -/
def tpcNotFoundError (cstat : CryostatGeo) (p : Point) : CetException :=
  ⟨"CryostatGeo",
    "Can not find any TPC for position " ++ pointStr p ++ " within " ++ cryostatIDStr cstat⟩

/-- Model of `CryostatGeo::PositionToTPC`: dereference the pointer or throw. -/
def PositionToTPC (contains : TPCGeo → Point → ℚ → Bool) (cstat : CryostatGeo)
    (point : Point) (wiggle : ℚ) : Except CetException TPCGeo :=
  match PositionToTPCptr contains cstat point wiggle with
  | some tpc => .ok tpc
  | none => .error (tpcNotFoundError cstat point)

/-- The constant `UINT_MAX`, the initial value of `ClosestDet`. -/
def UINT_MAX : Nat := 4294967295

/-- The value `std::numeric_limits<double>::max()`, exactly representable in `ℚ`. -/
def doubleMax : ℚ := 2 ^ 1024 - 2 ^ 971

/-- The exception `CryostatGeo::OpDet` throws for an out-of-range index. -/
def opDetOutOfRangeError (iopdet : Nat) : CetException :=
  ⟨"OpDetOutOfRange", "Request for non-existant OpDet " ++ toString iopdet⟩

/-- Model of `CryostatGeo::OpDet`: bounds-checked element access. -/
def OpDetAt (cstat : CryostatGeo) (iopdet : Nat) : Except CetException OpDetGeo :=
  if h : iopdet ≥ cstat.fOpDets.length then .error (opDetOutOfRangeError iopdet)
  else .ok (cstat.fOpDets.get ⟨iopdet, Nat.lt_of_not_le h⟩)

/-- The loop of `CryostatGeo::GetClosestOpDet`: running index `o`, current
best `closestDet` (initially `UINT_MAX`) and `closestDist` (initially
`doubleMax`); strict improvement updates the best. -/
def getClosestOpDetLoop (p : Point) :
    List OpDetGeo → Nat → Nat → ℚ → Nat
  | [], _, closestDet, _ => closestDet
  | od :: rest, o, closestDet, closestDist =>
    let thisDist := od.distanceToPoint p
    if thisDist < closestDist then getClosestOpDetLoop p rest (o + 1) o thisDist
    else getClosestOpDetLoop p rest (o + 1) closestDet closestDist

/-- Model of `CryostatGeo::GetClosestOpDet`. -/
def GetClosestOpDet (cstat : CryostatGeo) (p : Point) : Nat :=
  getClosestOpDetLoop p cstat.fOpDets 0 UINT_MAX doubleMax

/-- Model of `CryostatGeo::GetClosestOpDetPtr`, exactly as written: the unsigned
index is compared against `std::numeric_limits<double>::max()` (not the
unsigned maximum) before `OpDet` is called. -/
def GetClosestOpDetPtr (cstat : CryostatGeo) (p : Point) :
    Except CetException (Option OpDetGeo) :=
  let iOpDet := GetClosestOpDet cstat p
  if (iOpDet : ℚ) = doubleMax then .ok none
  else (OpDetAt cstat iOpDet).map some

/-! ### Concrete elements used in the claim instances -/

/-- A plane whose local origin sits at world X = 5. -/
def planeX5 : PlaneGeo := ⟨5, 0, 0⟩

/-- A plane whose local origin sits at world X = 10. -/
def planeX10 : PlaneGeo := ⟨10, 0, 0⟩

/-- A plane whose local origin sits at world X = 15. -/
def planeX15 : PlaneGeo := ⟨15, 0, 0⟩

/-- A plane at world X = 0, Z = 0. -/
def planeZ0 : PlaneGeo := ⟨0, 0, 0⟩

/-- A plane at world X = 0, Z = 5 (X tied with `planeZ0`). -/
def planeZ5 : PlaneGeo := ⟨0, 0, 5⟩

/-- A wire centered at world Z = 1, Y = 5. -/
def wireZ1Y5 : WireGeo := ⟨0, 5, 1⟩

/-- A wire centered at world Z = 1, Y = 3. -/
def wireZ1Y3 : WireGeo := ⟨0, 3, 1⟩

/-- A wire centered at world Z = 0, Y = 9. -/
def wireZ0Y9 : WireGeo := ⟨0, 9, 0⟩

/-! ### The containment band, read the way the spec states it -/

/-- Modelled from the spec wording: the half-width of the acceptance band at
local height `z`, linearly interpolated between `halfWidth1` at the face
`z = -length/2` and `halfWidth2` at the face `z = +length/2`. -/
def specInterpolatedHalfWidth (d : AuxDetDims) (z : ℚ) : ℚ :=
  d.halfWidth1 + ((z + d.length / 2) / d.length) * (d.halfWidth2 - d.halfWidth1)

/-- Modelled from the spec wording: the containment test as the spec states
it — `z` within the tolerance-widened half-length, `y` within the
tolerance-widened half-height, and `x` within the tolerance-widened
interpolated band. -/
def specAuxDetContains (d : AuxDetDims) (lp : Point) (tol : ℚ) : Prop :=
  |lp.z| ≤ d.length / 2 + tol ∧ |lp.y| ≤ d.halfHeight + tol ∧
    |lp.x| ≤ specInterpolatedHalfWidth d lp.z + tol

/-- The shape used by the concrete containment examples: a 2-long box with
unit half-widths and half-height. -/
def boxDims : AuxDetDims := ⟨1, 1, 1, 2⟩

/-- A local point inside `boxDims`. -/
def originPoint : Point := ⟨0, 0, 0⟩

/-- A TPC at world X = 0, rejected by the example containment test. -/
def tpcX0 : TPCGeo := ⟨0, 0, 0⟩

/-- The first TPC at world X = 1, accepted by the example containment
test. -/
def tpcX1a : TPCGeo := ⟨1, 0, 0⟩

/-- A second TPC at world X = 1 that the example containment test would
also accept; it sits after `tpcX1a` in sibling order. -/
def tpcX1b : TPCGeo := ⟨1, 5, 0⟩

/-- An example stand-in for the external `TPCGeo::ContainsPosition`:
accepts exactly the TPCs at world X = 1. -/
def containsX1 : TPCGeo → Point → ℚ → Bool := fun t _ _ => decide (t.x = 1)

/-- A cryostat owning the three example TPCs. -/
def cryoThree : CryostatGeo := ⟨0, 0, 0, [tpcX0, tpcX1a, tpcX1b], [], 3⟩

/-- An auxiliary detector whose transform moves the origin far outside its
box, so its containment test rejects the example point. -/
def adAway : AuxDetGeo := ⟨"volAuxDet0", fun q => ⟨q.x, q.y, q.z + 10⟩, boxDims⟩

/-- An auxiliary detector with the identity transform; its box contains the
example point. -/
def adHome : AuxDetGeo := ⟨"volAuxDet1", fun q => q, boxDims⟩

/-- The cryostat with no optical detectors, the failing input of the
`GetClosestOpDetPtr` guard. -/
def emptyCryostat : CryostatGeo := ⟨0, 0, 0, [], [], 0⟩

/-- A sensitive volume named following the documented
`volAuxDetSensitive##` pattern, suffix 1. -/
def sensVol1 : AuxDetSensitiveGeo := ⟨"volAuxDetSensitive1", fun q => q, boxDims⟩

/-- A sensitive volume named following the documented pattern, suffix 2. -/
def sensVol2 : AuxDetSensitiveGeo := ⟨"volAuxDetSensitive2", fun q => q, boxDims⟩

/-- An auxiliary detector named `volAuxDet3`. -/
def auxVol3 : AuxDetGeo := ⟨"volAuxDet3", fun q => q, boxDims⟩

/-- An auxiliary detector named `volAuxDet12`. -/
def auxVol12 : AuxDetGeo := ⟨"volAuxDet12", fun q => q, boxDims⟩

/-- An auxiliary detector whose 5-character volume name is shorter than the
9 characters `substr` skips. -/
def auxShort : AuxDetGeo := ⟨"short", fun q => q, boxDims⟩

/-- A sensitive volume whose 5-character name is shorter than the 9
characters `substr` skips. -/
def sensShort : AuxDetSensitiveGeo := ⟨"short", fun q => q, boxDims⟩

/-- The example name table: element index 7 is named `tag`. -/
def nameTable : List (Nat × String) := [(7, "tag")]

/-- The example sensitive-channel table: element 7 has two channels mapped
to sensitive-volume indices 3 and 4. -/
def svTable : List (Nat × List (Nat × Nat)) := [(7, [(0, 3), (1, 4)])]

/-! ### Generic facts about the `std::sort` model -/

/-- Inserting into a list whose adjacent elements are ordered by a total
relation keeps adjacent elements ordered. -/
theorem chain_orderedInsert (r : α → α → Prop) [DecidableRel r]
    (total : ∀ a b, r a b ∨ r b a) (a : α) :
    ∀ l : List α, l.Chain' r → (l.orderedInsert r a).Chain' r
  | [], _ => List.chain'_singleton a
  | b :: l, h => by
    rw [List.orderedInsert]
    split
    · exact List.chain'_cons.mpr ⟨by assumption, h⟩
    · rename_i hab
      have hba : r b a := (total a b).resolve_left hab
      have htail : (l.orderedInsert r a).Chain' r :=
        chain_orderedInsert r total a l h.tail
      apply List.chain'_cons'.mpr
      refine ⟨?_, htail⟩
      intro y hy
      cases l with
      | nil => simp [List.orderedInsert] at hy; subst hy; exact hba
      | cons c t =>
        rw [List.orderedInsert] at hy
        split at hy
        · simp at hy; subst hy; exact hba
        · simp at hy; subst hy
          exact (List.chain'_cons.mp h).1

/-- For a total relation, insertion sort leaves adjacent elements ordered. -/
theorem chain_insertionSort (r : α → α → Prop) [DecidableRel r]
    (total : ∀ a b, r a b ∨ r b a) :
    ∀ l : List α, (l.insertionSort r).Chain' r
  | [] => List.chain'_nil
  | b :: l => chain_orderedInsert r total b _ (chain_insertionSort r total l)

/-- An asymmetric strict comparison induces a total `stdSortRel`. -/
theorem stdSortRel_total (lt : α → α → Bool)
    (asym : ∀ a b, lt a b = true → lt b a = true → False) :
    ∀ a b, stdSortRel lt a b ∨ stdSortRel lt b a := by
  intro a b
  unfold stdSortRel
  cases h1 : lt b a
  · exact Or.inl rfl
  · cases h2 : lt a b
    · exact Or.inr rfl
    · exact (asym a b h2 h1).elim

/-- The `std::sort` model permutes its input. -/
theorem stdSort_perm (lt : α → α → Bool) (l : List α) : (stdSort lt l).Perm l :=
  List.perm_insertionSort _ l

/-- Adjacent elements of the `std::sort` model output are ordered: the later
one is never strictly before the earlier one. -/
theorem stdSort_chain (lt : α → α → Bool)
    (asym : ∀ a b, lt a b = true → lt b a = true → False) (l : List α) :
    (stdSort lt l).Chain' (stdSortRel lt) :=
  chain_insertionSort _ (stdSortRel_total lt asym) l

/-- A throwing comparison that in fact returns on every pair drawn from the
list and the inserted element makes the throwing ordered-insert agree with
the total one. -/
theorem orderedInsertE_agree (lt : α → α → Except CetException Bool)
    (ltB : α → α → Bool) (a : α) :
    ∀ l : List α, (∀ x ∈ l, lt x a = .ok (ltB x a)) →
      orderedInsertE (stdSortRelE lt) a l =
        .ok (List.orderedInsert (stdSortRel ltB) a l)
  | [], _ => rfl
  | b :: l, h => by
    have hb : lt b a = .ok (ltB b a) := h b (List.mem_cons_self b l)
    cases hba : ltB b a with
    | false =>
      simp only [orderedInsertE, stdSortRelE, hb, hba, Bool.not_false,
        List.orderedInsert]
      rw [if_pos (show stdSortRel ltB a b from hba)]
    | true =>
      simp only [orderedInsertE, stdSortRelE, hb, hba, Bool.not_true]
      rw [orderedInsertE_agree lt ltB a l
        (fun x hx => h x (List.mem_cons_of_mem b hx))]
      simp only [List.orderedInsert]
      rw [if_neg]
      intro hc
      exact absurd hc (by simp [stdSortRel, hba])

/-- A throwing comparison that returns on every pair of the list makes the
throwing insertion sort agree with the total one. -/
theorem insertionSortE_agree (lt : α → α → Except CetException Bool)
    (ltB : α → α → Bool) :
    ∀ l : List α, (∀ x ∈ l, ∀ y ∈ l, lt x y = .ok (ltB x y)) →
      insertionSortE (stdSortRelE lt) l =
        .ok (List.insertionSort (stdSortRel ltB) l)
  | [], _ => rfl
  | b :: l, h => by
    simp only [insertionSortE]
    rw [insertionSortE_agree lt ltB l
      (fun x hx y hy => h x (List.mem_cons_of_mem b hx) y (List.mem_cons_of_mem b hy))]
    exact orderedInsertE_agree lt ltB b _
      (fun x hx => h x (List.mem_cons_of_mem b ((List.mem_insertionSort _).mp hx))
        b (List.mem_cons_self b l))

/-- On volume names of at least 9 characters the checked AuxDet comparison
returns what the total one computes. -/
theorem sortAuxDetStandardChecked_agree (ad1 ad2 : AuxDetGeo)
    (h1 : 9 ≤ ad1.name.data.length) (h2 : 9 ≤ ad2.name.data.length) :
    sortAuxDetStandardChecked ad1 ad2 = .ok (sortAuxDetStandard ad1 ad2) := by
  have c1 : ¬9 > ad1.name.data.length := by omega
  have c2 : ¬9 > ad2.name.data.length := by omega
  simp only [sortAuxDetStandardChecked, cppSubstrChecked, c1, c2, if_false,
    sortAuxDetStandard, cppSubstr]

/-- On volume names of at least 9 characters the checked AuxDetSensitive
comparison returns what the total one computes. -/
theorem sortAuxDetSensitiveStandardChecked_agree (ad1 ad2 : AuxDetSensitiveGeo)
    (h1 : 9 ≤ ad1.name.data.length) (h2 : 9 ≤ ad2.name.data.length) :
    sortAuxDetSensitiveStandardChecked ad1 ad2 =
      .ok (sortAuxDetSensitiveStandard ad1 ad2) := by
  have c1 : ¬9 > ad1.name.data.length := by omega
  have c2 : ¬9 > ad2.name.data.length := by omega
  simp only [sortAuxDetSensitiveStandardChecked, cppSubstrChecked, c1, c2, if_false,
    sortAuxDetSensitiveStandard, cppSubstr]

/-! ### Asymmetry of the standard comparison functions -/

theorem sortPlaneStandard_asymm (p1 p2 : PlaneGeo) :
    sortPlaneStandard p1 p2 = true → sortPlaneStandard p2 p1 = true → False := by
  intro h1 h2
  simp only [sortPlaneStandard] at h1 h2
  rw [abs_sub_comm p2.x p1.x, abs_sub_comm p2.z p1.z] at h2
  split_ifs at h1 h2 <;> simp only [decide_eq_true_eq] at h1 h2 <;> linarith

theorem sortWireStandard_asymm (w1 w2 : WireGeo) :
    sortWireStandard w1 w2 = true → sortWireStandard w2 w1 = true → False := by
  intro h1 h2
  simp only [sortWireStandard] at h1 h2
  rw [abs_sub_comm w2.z w1.z, abs_sub_comm w2.y w1.y] at h2
  split_ifs at h1 h2 <;> simp only [decide_eq_true_eq] at h1 h2 <;> linarith

/-! ### Claim theorems -/

/-- Claim C1 (amended): the standard plane comparison orders by world X
descending outside the 0.001 tolerance, then world Z ascending, then world Y
ascending; `SortPlanes` applies it directly for decreasing-X drift and to
the reversed sequence for increasing-X drift, so plane index increases
along the drift direction in both cases, but X-ties fall through to world-Z
ascending only for decreasing-X drift — for increasing-X drift they come
out world-Z descending. Three planes at world X = 5, 10, 15 sorted with
decreasing-X drift get identifiers 0, 1, 2 at X = 15, 10, 5. -/
theorem sortPlaneStandard_drift_order :
    (∀ p1 p2 : PlaneGeo,
      (sortPlaneStandard p1 p2 = true ↔
        (|p1.x - p2.x| > DistanceTol ∧ p1.x > p2.x) ∨
        (|p1.x - p2.x| ≤ DistanceTol ∧ |p1.z - p2.z| > DistanceTol ∧ p1.z < p2.z) ∨
        (|p1.x - p2.x| ≤ DistanceTol ∧ |p1.z - p2.z| ≤ DistanceTol ∧ p1.y < p2.y))) ∧
    (∀ l : List PlaneGeo,
      ((SortPlanesRun l .kNegX).1.Chain' fun a b => sortPlaneStandard b a = false)) ∧
    (∀ l : List PlaneGeo,
      ((SortPlanesRun l .kPosX).1.Chain' fun a b => sortPlaneStandard a b = false)) ∧
    SortPlanesRun [planeX5, planeX10, planeX15] .kNegX =
      ([planeX15, planeX10, planeX5], none) ∧
    SortPlanesRun [planeX10, planeX5, planeX15] .kPosX =
      ([planeX5, planeX10, planeX15], none) ∧
    (SortPlanesRun [planeZ5, planeZ0] .kNegX).1 = [planeZ0, planeZ5] ∧
    (SortPlanesRun [planeZ5, planeZ0] .kPosX).1 = [planeZ5, planeZ0] := by
  refine ⟨?_, ?_, ?_, ?_, ?_, ?_, ?_⟩
  · intro p1 p2
    simp only [sortPlaneStandard]
    split_ifs with hx hz
    · simp only [decide_eq_true_eq]
      constructor
      · intro h
        exact Or.inl ⟨hx, h⟩
      · rintro (⟨_, h⟩ | ⟨hle, _, _⟩ | ⟨hle, _, _⟩)
        · exact h
        · linarith
        · linarith
    · push_neg at hx
      simp only [decide_eq_true_eq]
      constructor
      · intro h
        exact Or.inr (Or.inl ⟨hx, hz, h⟩)
      · rintro (⟨hgt, _⟩ | ⟨_, _, h⟩ | ⟨_, hle, _⟩)
        · linarith
        · exact h
        · linarith
    · push_neg at hx hz
      simp only [decide_eq_true_eq]
      constructor
      · intro h
        exact Or.inr (Or.inr ⟨hx, hz, h⟩)
      · rintro (⟨hgt, _⟩ | ⟨_, hgt, _⟩ | ⟨_, _, h⟩)
        · linarith
        · linarith
        · exact h
  · intro l
    exact stdSort_chain sortPlaneStandard sortPlaneStandard_asymm l
  · intro l
    exact (List.chain'_reverse).mpr
      (stdSort_chain sortPlaneStandard sortPlaneStandard_asymm l.reverse)
  · norm_num [SortPlanesRun, stdSort, List.insertionSort, List.orderedInsert, stdSortRel,
      sortPlaneStandard, planeX5, planeX10, planeX15, DistanceTol, lt_abs, abs_le]
  · norm_num [SortPlanesRun, stdSort, List.insertionSort, List.orderedInsert, stdSortRel,
      sortPlaneStandard, planeX5, planeX10, planeX15, DistanceTol, lt_abs, abs_le]
  · norm_num [SortPlanesRun, stdSort, List.insertionSort, List.orderedInsert, stdSortRel,
      sortPlaneStandard, planeZ0, planeZ5, DistanceTol, lt_abs, abs_le]
  · norm_num [SortPlanesRun, stdSort, List.insertionSort, List.orderedInsert, stdSortRel,
      sortPlaneStandard, planeZ0, planeZ5, DistanceTol, lt_abs, abs_le]

/-- Claim C1 (counterexample): for increasing-X drift, two planes whose
world-X coordinates are equal (within the 0.001 tolerance) but whose
world-Z differ by more than the tolerance come out in world-Z descending
order, not ascending as the claim states for both drift directions. -/
theorem sortPlaneStandard_posX_tie_z_descending :
    (SortPlanesRun [planeZ0, planeZ5] .kPosX).1 = [planeZ5, planeZ0] ∧
    |planeZ0.x - planeZ5.x| ≤ DistanceTol ∧
    DistanceTol < planeZ5.z - planeZ0.z := by
  refine ⟨?_, ?_, ?_⟩
  · norm_num [SortPlanesRun, stdSort, List.insertionSort, List.orderedInsert, stdSortRel,
      sortPlaneStandard, planeZ0, planeZ5, DistanceTol, lt_abs, abs_le]
  · norm_num [planeZ0, planeZ5, DistanceTol]
  · norm_num [planeZ0, planeZ5, DistanceTol]

/-- Claim C5 (amended): `SortPlanes` throws exactly for the unknown drift
direction, leaving the collection unchanged, and for the two known drift
directions throws nothing and only permutes the collection. The AuxDet and
AuxDetSensitive sorts, whose comparison takes `substr(9, ...)` of the
volume names, complete without error and only permute whenever every name
has at least 9 characters; with a shorter name the comparison throws
`std::out_of_range` (the counterexample exhibits this), so they are not
error-free in general. The cryostat, TPC and wire sorts compare only
transformed coordinates and have no error path. -/
theorem standard_sorts_error_conditions (pgeo : List PlaneGeo)
    (adgeo : List AuxDetGeo) (adsgeo : List AuxDetSensitiveGeo) :
    SortPlanesRun pgeo .kUnknownDrift = (pgeo, some planesUnknownDriftError) ∧
    (SortPlanesRun pgeo .kPosX).2 = none ∧
    (SortPlanesRun pgeo .kPosX).1.Perm pgeo ∧
    (SortPlanesRun pgeo .kNegX).2 = none ∧
    (SortPlanesRun pgeo .kNegX).1.Perm pgeo ∧
    ((∀ ad ∈ adgeo, 9 ≤ ad.name.data.length) →
      SortAuxDetsRun adgeo = .ok (SortAuxDets adgeo) ∧
        (SortAuxDets adgeo).Perm adgeo) ∧
    ((∀ ad ∈ adsgeo, 9 ≤ ad.name.data.length) →
      SortAuxDetSensitiveRun adsgeo = .ok (SortAuxDetSensitive adsgeo) ∧
        (SortAuxDetSensitive adsgeo).Perm adsgeo) := by
  refine ⟨rfl, rfl, ?_, rfl, stdSort_perm _ _, ?_, ?_⟩
  · exact ((List.reverse_perm _).trans (stdSort_perm _ _)).trans (List.reverse_perm _)
  · intro hlen
    exact ⟨insertionSortE_agree sortAuxDetStandardChecked sortAuxDetStandard adgeo
      (fun x hx y hy => sortAuxDetStandardChecked_agree x y (hlen x hx) (hlen y hy)),
      stdSort_perm _ _⟩
  · intro hlen
    exact ⟨insertionSortE_agree sortAuxDetSensitiveStandardChecked
      sortAuxDetSensitiveStandard adsgeo
      (fun x hx y hy =>
        sortAuxDetSensitiveStandardChecked_agree x y (hlen x hx) (hlen y hy)),
      stdSort_perm _ _⟩

/-- Claim C5 (counterexample): sorting operations other than `SortPlanes`
do have an error condition — when a volume name is shorter than the 9
characters `substr` skips, the AuxDet and AuxDetSensitive comparisons throw
`std::out_of_range`, which propagates out of the sort. -/
theorem SortAuxDets_short_name_throws :
    SortAuxDetsRun [auxVol3, auxShort] = .error (substrOutOfRangeError 9 5) ∧
    SortAuxDetSensitiveRun [sensShort, sensVol1] =
      .error (substrOutOfRangeError 9 5) :=
  ⟨rfl, rfl⟩

/-- Claim C5 (witness): the no-error cases at concrete inputs — collections
whose volume names all have at least 9 characters sort without an
exception. -/
theorem standard_sorts_error_conditions_witness :
    SortAuxDetsRun [auxVol3, auxVol12] = .ok (SortAuxDets [auxVol3, auxVol12]) ∧
    SortAuxDetSensitiveRun [sensVol1, sensVol2] =
      .ok (SortAuxDetSensitive [sensVol1, sensVol2]) :=
  ⟨((standard_sorts_error_conditions [] [auxVol3, auxVol12] []).2.2.2.2.2.1
      (by decide)).1,
   ((standard_sorts_error_conditions [] [] [sensVol1, sensVol2]).2.2.2.2.2.2
      (by decide)).1⟩

/-- Claim C6: the standard wire comparison orders by world Z of the center
ascending outside the 0.001 tolerance, then world Y ascending outside the
tolerance, then world X ascending; adjacent wires of a sorted collection
are so ordered, and wires with (z, y) centers (1,5), (1,3), (0,9) sort to
the order (0,9), (1,3), (1,5). -/
theorem sortWireStandard_order :
    (∀ w1 w2 : WireGeo,
      (sortWireStandard w1 w2 = true ↔
        (|w1.z - w2.z| > DistanceTol ∧ w1.z < w2.z) ∨
        (|w1.z - w2.z| ≤ DistanceTol ∧ |w1.y - w2.y| > DistanceTol ∧ w1.y < w2.y) ∨
        (|w1.z - w2.z| ≤ DistanceTol ∧ |w1.y - w2.y| ≤ DistanceTol ∧ w1.x < w2.x))) ∧
    (∀ l : List WireGeo, (SortWires l).Chain' fun a b => sortWireStandard b a = false) ∧
    SortWires [wireZ1Y5, wireZ1Y3, wireZ0Y9] = [wireZ0Y9, wireZ1Y3, wireZ1Y5] := by
  refine ⟨?_, ?_, ?_⟩
  · intro w1 w2
    simp only [sortWireStandard]
    split_ifs with hz hy
    · simp only [decide_eq_true_eq]
      constructor
      · intro h
        exact Or.inl ⟨hz, h⟩
      · rintro (⟨_, h⟩ | ⟨hle, _, _⟩ | ⟨hle, _, _⟩)
        · exact h
        · linarith
        · linarith
    · push_neg at hz
      simp only [decide_eq_true_eq]
      constructor
      · intro h
        exact Or.inr (Or.inl ⟨hz, hy, h⟩)
      · rintro (⟨hgt, _⟩ | ⟨_, _, h⟩ | ⟨_, hle, _⟩)
        · linarith
        · exact h
        · linarith
    · push_neg at hz hy
      simp only [decide_eq_true_eq]
      constructor
      · intro h
        exact Or.inr (Or.inr ⟨hz, hy, h⟩)
      · rintro (⟨hgt, _⟩ | ⟨_, hgt, _⟩ | ⟨_, _, h⟩)
        · linarith
        · linarith
        · exact h
  · intro l
    exact stdSort_chain sortWireStandard sortWireStandard_asymm l
  · norm_num [SortWires, stdSort, List.insertionSort, List.orderedInsert, stdSortRel,
      sortWireStandard, wireZ1Y5, wireZ1Y3, wireZ0Y9, DistanceTol, lt_abs, abs_le]

/-- Claim C10: `ChannelToAuxDet` depends only on the requested name and the
stored name table; the detector collection and the channel are ignored. -/
theorem ChannelToAuxDet_ignores_auxdets_and_channel :
    ∀ (fADGeoToName : List (Nat × String)) (detName : String)
      (auxDets1 auxDets2 : List AuxDetGeo) (channel1 channel2 : Nat),
      ChannelToAuxDet fADGeoToName auxDets1 detName channel1 =
        ChannelToAuxDet fADGeoToName auxDets2 detName channel2 :=
  fun _ _ _ _ _ _ => rfl

/-- Claim C2: the containment tests of `NearestAuxDet` and
`NearestSensitiveAuxDet` accept a local point exactly when z is within
±(length/2 + tolerance), y within ±(halfHeight + tolerance), and x within
± the tolerance-widened band half-width interpolated in z between
`halfWidth1` at `z = -length/2` and `halfWidth2` at `z = +length/2`; when
the two half-widths agree, the x test degenerates to the rectangular
|x| ≤ halfWidth1 + tolerance. -/
theorem NearestAuxDet_containment_band (d : AuxDetDims) (lp : Point) (tolerance : ℚ)
    (hL : 0 < d.length) :
    (nearestAuxDetAccepts d lp tolerance = true ↔ specAuxDetContains d lp tolerance) ∧
    (nearestSensitiveAccepts d lp tolerance = true ↔ specAuxDetContains d lp tolerance) ∧
    (d.halfWidth1 = d.halfWidth2 →
      (nearestAuxDetAccepts d lp tolerance = true ↔
        |lp.z| ≤ d.length / 2 + tolerance ∧ |lp.y| ≤ d.halfHeight + tolerance ∧
          |lp.x| ≤ d.halfWidth1 + tolerance)) := by
  have hband : (1 / 2) * (d.halfWidth1 + d.halfWidth2) -
      lp.z * ((1 / 2) * (d.halfWidth1 + d.halfWidth2) - d.halfWidth2) /
        ((1 / 2) * d.length) = specInterpolatedHalfWidth d lp.z := by
    unfold specInterpolatedHalfWidth
    field_simp
    ring
  have hmain :
      nearestAuxDetAccepts d lp tolerance = true ↔ specAuxDetContains d lp tolerance := by
    simp only [nearestAuxDetAccepts, Bool.and_eq_true, decide_eq_true_eq,
      specAuxDetContains, abs_le, ge_iff_le, ← hband]
    constructor
    · rintro ⟨⟨⟨⟨⟨h1, h2⟩, h3⟩, h4⟩, h5⟩, h6⟩
      exact ⟨⟨by linarith, h2⟩, ⟨by linarith, h4⟩, by linarith, by linarith⟩
    · rintro ⟨⟨h1, h2⟩, ⟨h3, h4⟩, h5, h6⟩
      exact ⟨⟨⟨⟨⟨by linarith, h2⟩, by linarith⟩, h4⟩, by linarith⟩, by linarith⟩
  have hsens :
      nearestSensitiveAccepts d lp tolerance = true ↔ specAuxDetContains d lp tolerance := by
    rw [← hmain]
    simp only [nearestSensitiveAccepts, nearestAuxDetAccepts, Bool.and_eq_true,
      decide_eq_true_eq, ge_iff_le]
    constructor
    · rintro ⟨⟨⟨⟨⟨h1, h2⟩, h3⟩, h4⟩, h5⟩, h6⟩
      exact ⟨⟨⟨⟨⟨by linarith, h2⟩, by linarith⟩, h4⟩, h5⟩, h6⟩
    · rintro ⟨⟨⟨⟨⟨h1, h2⟩, h3⟩, h4⟩, h5⟩, h6⟩
      exact ⟨⟨⟨⟨⟨by linarith, h2⟩, by linarith⟩, h4⟩, h5⟩, h6⟩
  refine ⟨hmain, hsens, ?_⟩
  intro h12
  have hbox : specInterpolatedHalfWidth d lp.z = d.halfWidth1 := by
    unfold specInterpolatedHalfWidth
    rw [← h12]
    ring
  rw [hmain]
  unfold specAuxDetContains
  rw [hbox]

/-- Claim C2 (witness): the band equivalence instantiated on a concrete
box shape, with the positive-length hypothesis discharged. -/
theorem NearestAuxDet_containment_band_witness :
    0 < boxDims.length ∧
    (nearestAuxDetAccepts boxDims originPoint (1 / 10) = true ↔
      specAuxDetContains boxDims originPoint (1 / 10)) :=
  ⟨by norm_num [boxDims],
   (NearestAuxDet_containment_band boxDims originPoint (1 / 10)
     (by norm_num [boxDims])).1⟩

/-! ### First-match helpers for the containment queries -/

/-- The TPC scan returns the first accepted element, whatever follows it. -/
theorem firstContainingTPC_append (contains : TPCGeo → Point → ℚ → Bool)
    (p : Point) (w : ℚ) :
    ∀ (l1 : List TPCGeo) (t : TPCGeo) (l2 : List TPCGeo),
      (∀ u ∈ l1, contains u p w = false) → contains t p w = true →
      firstContainingTPC contains p w (l1 ++ t :: l2) = some t
  | [], t, l2, _, ht => by simp [firstContainingTPC, ht]
  | u :: l1, t, l2, hu, ht => by
    have h0 : contains u p w = false := hu u (List.mem_cons_self u l1)
    simp only [List.cons_append, firstContainingTPC, h0, Bool.false_eq_true, if_false]
    exact firstContainingTPC_append contains p w l1 t l2
      (fun v hv => hu v (List.mem_cons_of_mem u hv)) ht

/-- The TPC scan finds nothing when no element accepts the point. -/
theorem firstContainingTPC_none (contains : TPCGeo → Point → ℚ → Bool)
    (p : Point) (w : ℚ) :
    ∀ l : List TPCGeo, (∀ u ∈ l, contains u p w = false) →
      firstContainingTPC contains p w l = none
  | [], _ => rfl
  | u :: l, hu => by
    have h0 : contains u p w = false := hu u (List.mem_cons_self u l)
    simp only [firstContainingTPC, h0, Bool.false_eq_true, if_false]
    exact firstContainingTPC_none contains p w l
      (fun v hv => hu v (List.mem_cons_of_mem u hv))

/-- The AuxDet scan returns the index of the first accepted detector. -/
theorem nearestAuxDetLoop_append (p : Point) (tol : ℚ) :
    ∀ (l1 : List AuxDetGeo) (ad : AuxDetGeo) (l2 : List AuxDetGeo) (k : Nat),
      (∀ u ∈ l1, nearestAuxDetAccepts u.dims (u.worldToLocal p) tol = false) →
      nearestAuxDetAccepts ad.dims (ad.worldToLocal p) tol = true →
      nearestAuxDetLoop p tol (l1 ++ ad :: l2) k = .ok (k + l1.length)
  | [], ad, l2, k, _, hacc => by simp [nearestAuxDetLoop, hacc]
  | u :: l1, ad, l2, k, hu, hacc => by
    have h0 : nearestAuxDetAccepts u.dims (u.worldToLocal p) tol = false :=
      hu u (List.mem_cons_self u l1)
    show nearestAuxDetLoop p tol (u :: (l1 ++ ad :: l2)) k =
      Except.ok (k + (u :: l1).length)
    simp only [nearestAuxDetLoop, h0, Bool.false_eq_true, if_false]
    rw [nearestAuxDetLoop_append p tol l1 ad l2 (k + 1)
      (fun v hv => hu v (List.mem_cons_of_mem u hv)) hacc]
    congr 1
    simp only [List.length_cons]
    omega

/-- The AuxDet scan throws, naming the point, when no detector accepts. -/
theorem nearestAuxDetLoop_none (p : Point) (tol : ℚ) :
    ∀ (l : List AuxDetGeo) (k : Nat),
      (∀ u ∈ l, nearestAuxDetAccepts u.dims (u.worldToLocal p) tol = false) →
      nearestAuxDetLoop p tol l k = .error (auxDetNotFoundError p)
  | [], _, _ => rfl
  | u :: l, k, hu => by
    have h0 : nearestAuxDetAccepts u.dims (u.worldToLocal p) tol = false :=
      hu u (List.mem_cons_self u l)
    simp only [nearestAuxDetLoop, h0, Bool.false_eq_true, if_false]
    exact nearestAuxDetLoop_none p tol l (k + 1)
      (fun v hv => hu v (List.mem_cons_of_mem u hv))

/-- Claim C3: the containment queries return the first candidate in sibling
order whose containment test accepts the point, even when a later candidate
would also accept it; on a miss `PositionToTPCptr` returns an empty result
while `PositionToTPC` and `NearestAuxDet` fail with an exception naming the
query point, and no variant retries with a different tolerance. -/
theorem containment_first_match (contains : TPCGeo → Point → ℚ → Bool)
    (cstat : CryostatGeo) (p : Point) (wiggle tol : ℚ) (auxDets : List AuxDetGeo) :
    (∀ (l1 : List TPCGeo) (t : TPCGeo) (l2 : List TPCGeo),
      cstat.fTPCs = l1 ++ t :: l2 →
      (∀ u ∈ l1, contains u p wiggle = false) → contains t p wiggle = true →
      PositionToTPCptr contains cstat p wiggle = some t ∧
        PositionToTPC contains cstat p wiggle = .ok t) ∧
    ((∀ t ∈ cstat.fTPCs, contains t p wiggle = false) →
      PositionToTPCptr contains cstat p wiggle = none ∧
        PositionToTPC contains cstat p wiggle = .error (tpcNotFoundError cstat p)) ∧
    (∀ (l1 : List AuxDetGeo) (ad : AuxDetGeo) (l2 : List AuxDetGeo),
      auxDets = l1 ++ ad :: l2 →
      (∀ u ∈ l1, nearestAuxDetAccepts u.dims (u.worldToLocal p) tol = false) →
      nearestAuxDetAccepts ad.dims (ad.worldToLocal p) tol = true →
      NearestAuxDet p auxDets tol = .ok l1.length) ∧
    ((∀ u ∈ auxDets, nearestAuxDetAccepts u.dims (u.worldToLocal p) tol = false) →
      NearestAuxDet p auxDets tol = .error (auxDetNotFoundError p)) := by
  refine ⟨?_, ?_, ?_, ?_⟩
  · intro l1 t l2 hsplit hl1 ht
    have hptr : PositionToTPCptr contains cstat p wiggle = some t := by
      unfold PositionToTPCptr
      rw [hsplit]
      exact firstContainingTPC_append contains p wiggle l1 t l2 hl1 ht
    refine ⟨hptr, ?_⟩
    unfold PositionToTPC
    rw [hptr]
  · intro hall
    have hptr : PositionToTPCptr contains cstat p wiggle = none :=
      firstContainingTPC_none contains p wiggle cstat.fTPCs hall
    refine ⟨hptr, ?_⟩
    unfold PositionToTPC
    rw [hptr]
  · intro l1 ad l2 hsplit hl1 hacc
    unfold NearestAuxDet
    rw [hsplit]
    simpa using nearestAuxDetLoop_append p tol l1 ad l2 0 hl1 hacc
  · intro hall
    exact nearestAuxDetLoop_none p tol auxDets 0 hall

/-- Claim C3 (witness): the first-match properties applied to concrete
collections in which a later candidate also accepts the point. -/
theorem containment_first_match_witness :
    PositionToTPCptr containsX1 cryoThree originPoint 1 = some tpcX1a ∧
    NearestAuxDet originPoint [adAway, adHome] 0 = .ok 1 := by
  constructor
  · exact ((containment_first_match containsX1 cryoThree originPoint 1 0
      [adAway, adHome]).1 [tpcX0] tpcX1a [tpcX1b] rfl
      (by
        intro u hu
        rcases List.mem_singleton.mp hu with rfl
        simp only [containsX1, tpcX0, decide_eq_false_iff_not]
        norm_num)
      (by simp only [containsX1, tpcX1a, decide_eq_true_eq])).1
  · exact (containment_first_match containsX1 cryoThree originPoint 1 0
      [adAway, adHome]).2.2.1 [adAway] adHome [] rfl
      (by
        intro u hu
        rcases List.mem_singleton.mp hu with rfl
        norm_num [nearestAuxDetAccepts, adAway, boxDims, originPoint])
      (by norm_num [nearestAuxDetAccepts, adHome, boxDims, originPoint])

/-- Claim C4: on an empty optical-detector collection `GetClosestOpDet`
returns `UINT_MAX` as the claim states, but `GetClosestOpDetPtr` compares
that unsigned index with the maximum `double`, which can never match, so
instead of returning a null pointer it calls `OpDet(UINT_MAX)` and throws
`OpDetOutOfRange`. -/
theorem GetClosestOpDetPtr_empty_throws :
    GetClosestOpDet emptyCryostat originPoint = UINT_MAX ∧
    (UINT_MAX : ℚ) ≠ doubleMax ∧
    GetClosestOpDetPtr emptyCryostat originPoint =
      .error (opDetOutOfRangeError UINT_MAX) := by
  have hne : (UINT_MAX : ℚ) ≠ doubleMax := by
    norm_num [UINT_MAX, doubleMax]
  refine ⟨rfl, hne, ?_⟩
  simp only [GetClosestOpDetPtr]
  rw [show GetClosestOpDet emptyCryostat originPoint = UINT_MAX from rfl, if_neg hne]
  rfl

/-- Claim C7: for AuxDet elements the comparison does order by the parsed
integer suffix (3 before 12, a numeric, not lexicographic, order), but for
AuxDetSensitive elements the substring taken from position 9 of a
`volAuxDetSensitive##` name still starts with `Sensitive`, so `atoi` yields
0 for every conforming name and the comparison never puts the smaller
suffix first. -/
theorem sortAuxDetSensitiveStandard_suffix_bug :
    sortAuxDetSensitiveStandard sensVol1 sensVol2 = false ∧
    sortAuxDetSensitiveStandard sensVol2 sensVol1 = false ∧
    atoi (cppSubstr sensVol1.name 9) = 0 ∧
    atoi (cppSubstr sensVol2.name 9) = 0 ∧
    sortAuxDetStandard auxVol3 auxVol12 = true ∧
    atoi (cppSubstr auxVol3.name 9) = 3 ∧
    atoi (cppSubstr auxVol12.name 9) = 12 := by
  refine ⟨?_, ?_, ?_, ?_, ?_, ?_, ?_⟩ <;> decide

/-! ### Channel-map resolution -/

/-- The name scan fails with the no-such-element exception when nothing
matches. -/
theorem channelToAuxDetLoop_error (detName : String) :
    ∀ m : List (Nat × String), (∀ e ∈ m, e.2 ≠ detName) →
      channelToAuxDetLoop detName m = .error (noAuxDetError detName)
  | [], _ => rfl
  | e :: m, he => by
    have h0 : ¬(e.2 = detName) := he e (List.mem_cons_self e m)
    simp only [channelToAuxDetLoop, h0, if_false]
    exact channelToAuxDetLoop_error detName m
      (fun v hv => he v (List.mem_cons_of_mem e hv))

/-- Claim C8: `ChannelToSensitiveAuxDet` first resolves the name (failing
with the no-such-element exception when no table entry matches); an element
without a sensitive-channel vector yields the no-sensitive-table exception;
with a vector of size N, channel ≥ N yields the channel-out-of-range
exception and channel ≤ N-1 succeeds with the element index paired with
the stored sensitive-volume index. -/
theorem ChannelToSensitiveAuxDet_resolution (fADGeoToName : List (Nat × String))
    (fADGeoToChannelAndSV : List (Nat × List (Nat × Nat))) (auxDets : List AuxDetGeo)
    (detName : String) (channel : Nat) :
    ((∀ e ∈ fADGeoToName, e.2 ≠ detName) →
      ChannelToSensitiveAuxDet fADGeoToName fADGeoToChannelAndSV auxDets detName channel =
        .error (noAuxDetError detName)) ∧
    (∀ adGeoIdx, ChannelToAuxDet fADGeoToName auxDets detName channel = .ok adGeoIdx →
      (lookupChannelAndSV fADGeoToChannelAndSV adGeoIdx = none →
        ChannelToSensitiveAuxDet fADGeoToName fADGeoToChannelAndSV auxDets detName channel =
          .error (noSensitiveTableError adGeoIdx)) ∧
      (∀ vec, lookupChannelAndSV fADGeoToChannelAndSV adGeoIdx = some vec →
        (∀ h : channel < vec.length,
          ChannelToSensitiveAuxDet fADGeoToName fADGeoToChannelAndSV auxDets detName
              channel = .ok (adGeoIdx, (vec.get ⟨channel, h⟩).2)) ∧
        (vec.length ≤ channel →
          ChannelToSensitiveAuxDet fADGeoToName fADGeoToChannelAndSV auxDets detName
              channel = .error (channelOutOfRangeError channel adGeoIdx vec.length)))) := by
  constructor
  · intro hnone
    have h := channelToAuxDetLoop_error detName fADGeoToName hnone
    simp only [ChannelToSensitiveAuxDet, ChannelToAuxDet, h]
  · intro adGeoIdx hok
    constructor
    · intro hnone
      simp only [ChannelToSensitiveAuxDet, hok, hnone]
    · intro vec hsome
      constructor
      · intro h
        simp only [ChannelToSensitiveAuxDet, hok, hsome]
        rw [dif_pos h]
      · intro hge
        simp only [ChannelToSensitiveAuxDet, hok, hsome]
        rw [dif_neg (Nat.not_lt.mpr hge)]

/-- Claim C8 (witness): with two channels, channel 1 resolves to the stored
sensitive index and channel 2 fails with the out-of-range exception. -/
theorem ChannelToSensitiveAuxDet_resolution_witness :
    ChannelToSensitiveAuxDet nameTable svTable [] "tag" 1 = .ok (7, 4) ∧
    ChannelToSensitiveAuxDet nameTable svTable [] "tag" 2 =
      .error (channelOutOfRangeError 2 7 2) := by
  constructor
  · exact (((ChannelToSensitiveAuxDet_resolution nameTable svTable [] "tag" 1).2 7
      rfl).2 [(0, 3), (1, 4)] rfl).1 (by decide)
  · exact (((ChannelToSensitiveAuxDet_resolution nameTable svTable [] "tag" 2).2 7
      rfl).2 [(0, 3), (1, 4)] rfl).2 (by decide)

end Geo
